import Mathlib

/-!
# rtos_win32: tick clock, events and task lifecycle

A shallow embedding of `rtos_win32.c`.  The C functions become Lean functions
with the same names.  The Win32 objects the code drives (events, threads,
`Sleep`, `WaitForSingleObject`) are modelled by their documented behaviour;
every outcome the host decides on its own (an allocation failing,
`ResumeThread` failing) is an explicit argument.  A blocking call that never
returns has the result `none`.  Calls on a task made by other threads are
interleaved with the backing thread one statement at a time.

Machine integers are `Nat`/`Int` with the reduction modulo `2^32` or `2^64`
written out where the C arithmetic can wrap.
-/

namespace RtosWin32

/-! ## Constants -/

/-- The largest `uint32_t`, the "wait forever" sentinel of the API. -/
def UINT32_MAX : Nat := 4294967295

/-- Win32 `INFINITE`, `0xFFFFFFFF`. -/
def INFINITE : Nat := 4294967295

/-- Product of two `DWORD` operands as C computes it, modulo `2^32`
(`ticks * 10u`, lines 56, 92 and 209). -/
def mul_u32 (a b : Nat) : Nat := (a * b) % 4294967296

/-- Result codes of `WaitForSingleObject`. -/
inductive WaitResult
  | WAIT_OBJECT_0
  | WAIT_TIMEOUT
  | WAIT_FAILED
  deriving DecidableEq

/-! ## Tick clock (lines 16-59) -/

/-- A call of a blocking host primitive together with the millisecond argument
it is handed. -/
inductive HostCall
  | Sleep (dwMilliseconds : Nat)
  deriving DecidableEq

/-- `InterlockedCompareExchange64(dest, exchange, comparand)`: returns the
initial value of `*dest` and the value stored afterwards. -/
def InterlockedCompareExchange64 (dest exchange comparand : Nat) : Nat × Nat :=
  (dest, if dest = comparand then exchange else dest)

/-- `InterlockedAdd64(dest, value)` on the 64-bit pattern of a `LONG64`: the
addition wraps modulo `2^64`. -/
def InterlockedAdd64 (dest value : Nat) : Nat := (dest + value) % 18446744073709551616

/-- The statics of the tick clock.  `g_tick` is the `volatile LONG64 g_tick` of
line 20, held as its 64-bit two's-complement pattern, that is as the value
`(uint64_t)g_tick` that `rtos_get_ticks` returns.  `drivers` counts the
`tick_thread_proc` instances that have reached their `for (;;)` loop. -/
structure Clock where
  g_tick : Nat
  drivers : Nat
  deriving DecidableEq

/-- The statics as the C initialisers leave them (`g_tick = 0`, no driver). -/
def Clock.boot : Clock := { g_tick := 0, drivers := 0 }

/-- One pass of the `for (;;)` loop of `tick_thread_proc` (lines 36-40), given
the value `w` the wait on the timer returned: `none` is the `break`. -/
def tick_thread_proc_loop (w : WaitResult) (g_tick : Nat) : Option Nat :=
  if w ≠ WaitResult.WAIT_OBJECT_0 then none
  else some (InterlockedAdd64 g_tick 1)

/-- `rtos_get_ticks` (lines 46-48): the value returned and the counter
afterwards. -/
def rtos_get_ticks (g_tick : Nat) : Nat × Nat :=
  let r := InterlockedCompareExchange64 g_tick 0 0
  (r.1 % 18446744073709551616, r.2)

/-- The part of `tick_thread_proc` before its loop (lines 25-34), given the
outcomes of `CreateWaitableTimer` and `SetWaitableTimer`: `some code` when the
thread returns `code` at once, `none` when it goes on into the loop. -/
def tick_thread_proc_setup (timer_ok set_ok : Bool) : Option Nat :=
  if !timer_ok then some 1
  else if !set_ok then some 2
  else none

/-- `rtos_start` (lines 218-222), given the outcome of `CreateThread`: the value
returned, `g_tickThread != NULL`. -/
def rtos_start (thread_ok : Bool) : Bool := thread_ok

/-- `rtos_delay_ticks` (lines 51-59): the host call it makes. -/
def rtos_delay_ticks (ticks : Nat) : HostCall :=
  if ticks = UINT32_MAX then
    HostCall.Sleep INFINITE
  else
    let ms := mul_u32 ticks 10
    HostCall.Sleep ms

/-- What a caller or the host can do to the tick clock.  `rtos_start` carries
the three host outcomes that decide whether a driver reaches its loop:
`CreateThread` (line 220), `CreateWaitableTimer` (line 27) and
`SetWaitableTimer` (line 30). -/
inductive ClockAction
  | get_ticks
  | delay_ticks (ticks : Nat)
  | rtos_start (thread_ok timer_ok set_ok : Bool)
  | timer_fires
  deriving DecidableEq

/-- One action on the tick clock; `none` when the action cannot happen (a
timer firing is handled only by a driver that is in its loop). -/
def Clock.step (c : Clock) : ClockAction → Option Clock
  | ClockAction.get_ticks => some { c with g_tick := (rtos_get_ticks c.g_tick).2 }
  | ClockAction.delay_ticks _ => some c
  | ClockAction.rtos_start thread_ok timer_ok set_ok =>
      if rtos_start thread_ok ∧ tick_thread_proc_setup timer_ok set_ok = none then
        some { c with drivers := c.drivers + 1 }
      else some c
  | ClockAction.timer_fires =>
      if c.drivers = 0 then none
      else (tick_thread_proc_loop WaitResult.WAIT_OBJECT_0 c.g_tick).map
        (fun g => { c with g_tick := g })

/-- A sequence of actions on the tick clock, left to right. -/
def Clock.run (c : Clock) : List ClockAction → Option Clock
  | [] => some c
  | a :: rest => (c.step a).bind (fun c1 => c1.run rest)

/-- Whether an action is a call of `rtos_start`. -/
def ClockAction.isStart : ClockAction → Bool
  | ClockAction.rtos_start _ _ _ => true
  | _ => false

/-! ## Timeout conversion of the waits (lines 92 and 209) -/

/-- The local `to` of `rtos_wait_event` (line 92). -/
def rtos_wait_event_to (timeout_ticks : Nat) : Nat :=
  if timeout_ticks = UINT32_MAX then INFINITE else mul_u32 timeout_ticks 10

/-- The local `to` of `rtos_task_delete` (line 209). -/
def rtos_task_delete_to (join_timeout_ticks : Nat) : Nat :=
  if join_timeout_ticks = UINT32_MAX then INFINITE else mul_u32 join_timeout_ticks 10

/-! ## Events (lines 61-95) -/

/-- A Win32 event object: its reset mode and whether it is signaled. -/
structure Event where
  manualReset : Bool
  signaled : Bool
  deriving DecidableEq

/-- `CreateEvent(NULL, bManualReset, bInitialState, NULL)`; `host_ok = false`
is the host failing, which returns `NULL`. -/
def CreateEvent (host_ok bManualReset bInitialState : Bool) : Option Event :=
  if host_ok then some { manualReset := bManualReset, signaled := bInitialState }
  else none

/-- `SetEvent`: the object becomes signaled. -/
def SetEvent (e : Event) : Event := { e with signaled := true }

/-- `ResetEvent`: the object becomes nonsignaled. -/
def ResetEvent (e : Event) : Event := { e with signaled := false }

/-- `WaitForSingleObject(h, dwMilliseconds)` on an event that no other thread
touches during the wait: a signaled event satisfies the wait at once (and an
auto-reset event is cleared by it); a nonsignaled one makes a finite wait
time out and an `INFINITE` wait never return (`none`). -/
def WaitForSingleObject_event (e : Event) (dwMilliseconds : Nat) :
    Option (WaitResult × Event) :=
  if e.signaled then
    some (WaitResult.WAIT_OBJECT_0, if e.manualReset then e else ResetEvent e)
  else if dwMilliseconds = INFINITE then none
  else some (WaitResult.WAIT_TIMEOUT, e)

/-- The struct `rtos_event_t` (lines 63-65): `h` is `NULL` (`none`) or a handle
to an event object. -/
structure rtos_event_t where
  h : Option Event
  deriving DecidableEq

/-- `rtos_event_create` (lines 67-71).  The pointer `ev` may be `NULL`
(`none`); the result is the return value and the struct afterwards. -/
def rtos_event_create (host_ok : Bool) (ev : Option rtos_event_t) :
    Bool × Option rtos_event_t :=
  match ev with
  | none => (false, none)
  | some _ =>
      let h := CreateEvent host_ok true false
      (h.isSome, some { h := h })

/-- `rtos_event_destroy` (lines 73-78). -/
def rtos_event_destroy (ev : Option rtos_event_t) : Option rtos_event_t :=
  match ev with
  | some { h := some _ } => some { h := none }
  | other => other

/-- `rtos_event_reset` (lines 80-82). -/
def rtos_event_reset (ev : Option rtos_event_t) : Option rtos_event_t :=
  match ev with
  | some { h := some e } => some { h := some (ResetEvent e) }
  | other => other

/-- `rtos_event_set` (lines 84-86). -/
def rtos_event_set (ev : Option rtos_event_t) : Option rtos_event_t :=
  match ev with
  | some { h := some e } => some { h := some (SetEvent e) }
  | other => other

/-- `rtos_wait_event` (lines 90-95) over any host wait `WaitForSingleObject`,
which is handed the event and the timeout in milliseconds: the return value
and the struct afterwards; `none` when the call never returns. -/
def rtos_wait_event_with
    (WaitForSingleObject : Event → Nat → Option (WaitResult × Event))
    (ev : Option rtos_event_t) (timeout_ticks : Nat) :
    Option (Bool × Option rtos_event_t) :=
  match ev with
  | some { h := some e } =>
      let to_ := rtos_wait_event_to timeout_ticks
      (WaitForSingleObject e to_).map
        (fun w => (decide (w.1 = WaitResult.WAIT_OBJECT_0), some { h := some w.2 }))
  | other => some (false, other)

/-- `rtos_wait_event` (lines 90-95) on the host wait of this model. -/
def rtos_wait_event (ev : Option rtos_event_t) (timeout_ticks : Nat) :
    Option (Bool × Option rtos_event_t) :=
  rtos_wait_event_with WaitForSingleObject_event ev timeout_ticks

/-- A host wait on an event that returns, with a timeout, only when it is
handed exactly `ms` milliseconds, and never returns otherwise: it makes the
duration a function hands to the host visible in the result. -/
def wait_event_exactly (ms : Nat) (e : Event) (dwMilliseconds : Nat) :
    Option (WaitResult × Event) :=
  if dwMilliseconds = ms then some (WaitResult.WAIT_TIMEOUT, e) else none

/-- The calls a program can make on an event it has created. -/
inductive EventOp
  | set
  | reset
  | wait (timeout_ticks : Nat)
  deriving DecidableEq

/-- One call on an event; `none` when the call never returns. -/
def EventOp.apply (ev : Option rtos_event_t) : EventOp → Option (Option rtos_event_t)
  | EventOp.set => some (rtos_event_set ev)
  | EventOp.reset => some (rtos_event_reset ev)
  | EventOp.wait n => (rtos_wait_event ev n).map (fun r => r.2)

/-- A sequence of calls on an event, left to right. -/
def eventRun (ev : Option rtos_event_t) : List EventOp → Option (Option rtos_event_t)
  | [] => some ev
  | op :: rest => (op.apply ev).bind (fun ev1 => eventRun ev1 rest)

/-- Consecutive calls of `rtos_wait_event` with the given timeouts: the list
of return values and the struct after the last one. -/
def waitAll (ev : Option rtos_event_t) : List Nat → Option (List Bool × Option rtos_event_t)
  | [] => some ([], ev)
  | n :: rest =>
      (rtos_wait_event ev n).bind (fun r =>
        (waitAll r.2 rest).map (fun rs => (r.1 :: rs.1, rs.2)))

/-! ## Tasks (lines 97-214) -/

/-- `RTOS_TASK_NEW` of `rtos_task_state_t` (lines 101-106). -/
def RTOS_TASK_NEW : Int := 0

/-- `RTOS_TASK_RUNNING`. -/
def RTOS_TASK_RUNNING : Int := 1

/-- `RTOS_TASK_STOPPING`. -/
def RTOS_TASK_STOPPING : Int := 2

/-- `RTOS_TASK_STOPPED`. -/
def RTOS_TASK_STOPPED : Int := 3

/-- `InterlockedExchange(target, value)`: the initial value and the value
stored. -/
def InterlockedExchange (target value : Int) : Int × Int := (target, value)

/-- `InterlockedCompareExchange(dest, exchange, comparand)`: the initial value
and the value stored. -/
def InterlockedCompareExchange (dest exchange comparand : Int) : Int × Int :=
  (dest, if dest = comparand then exchange else dest)

/-- Where the backing thread stands: the line of `task_trampoline` or of
`rtos_yield` it executes next. -/
inductive Pc
  | L144   -- about to store tls_self = t
  | L146   -- about to store RTOS_TASK_RUNNING
  | L149   -- about to wait on run_event
  | L151   -- inside t->entry(t->arg), outside any call of the runtime
  | Y131   -- inside rtos_yield, ResetEvent done, about to Sleep(0)
  | Y132   -- inside rtos_yield, Sleep(0) done, about to SetEvent
  | L153   -- entry returned, about to store RTOS_TASK_STOPPED
  | exited -- task_trampoline returned 0
  deriving DecidableEq

/-- A Win32 thread object running `task_trampoline`: its suspend count, its
position and whether its thread-local `tls_self` points at the task
(`false` is `NULL`). -/
structure Thread where
  suspendCount : Nat
  pc : Pc
  tls_self : Bool
  deriving DecidableEq

/-- `ResumeThread`: returns the previous suspend count and decrements it when
it is positive; `host_ok = false` is the host failing, which returns
`(DWORD)-1` and changes nothing. -/
def ResumeThread (thr : Thread) (host_ok : Bool) : Nat × Thread :=
  if host_ok then (thr.suspendCount, { thr with suspendCount := thr.suspendCount - 1 })
  else (4294967295, thr)

/-- `WaitForSingleObject(thread, dwMilliseconds)`: a thread object is signaled
once the thread has terminated. -/
def WaitForSingleObject_thread (thr : Thread) (dwMilliseconds : Nat) : Option WaitResult :=
  if thr.pc = Pc.exited then some WaitResult.WAIT_OBJECT_0
  else if dwMilliseconds = INFINITE then none
  else some WaitResult.WAIT_TIMEOUT

/-- The struct `rtos_task_t` (lines 108-121) with the host objects behind its
two handles.  `tid`, `entry`, `arg` and `name` are never read by the runtime
apart from the call of `entry`; the entry body is modelled by the actions
below.  The three flags record the resources `rtos_task_delete` releases:
the handle `thread`, the handle `run_event` and the heap block of the
record. -/
structure rtos_task_t where
  thread : Thread
  stop_req : Int
  state : Int
  run_event : Event
  thread_open : Bool
  run_event_open : Bool
  allocated : Bool
  deriving DecidableEq

/-- `rtos_yield` (lines 127-133), given the caller's `tls_self`. -/
def rtos_yield (tls_self : Option rtos_task_t) : Option rtos_task_t :=
  match tls_self with
  | none => none
  | some t =>
      let t1 := { t with run_event := ResetEvent t.run_event }
      some { t1 with run_event := SetEvent t1.run_event }

/-- `rtos_should_stop` (lines 135-139), given the caller's `tls_self`: the
return value and the task afterwards. -/
def rtos_should_stop (tls_self : Option rtos_task_t) : Bool × Option rtos_task_t :=
  match tls_self with
  | none => (false, none)
  | some t =>
      let r := InterlockedCompareExchange t.stop_req 0 0
      (decide (r.1 ≠ 0), some { t with stop_req := r.2 })

/-- `rtos_task_create` (lines 158-188).  `out_ok` and `entry_ok` say that the
pointers `out` and `entry` are not `NULL`; `heap_ok`, `event_ok` and
`thread_ok` are the outcomes of `HeapAlloc`, `CreateEvent` and
`CreateThread`.  The result is the return value and `*out`. -/
def rtos_task_create (out_ok entry_ok heap_ok event_ok thread_ok : Bool) :
    Bool × Option rtos_task_t :=
  if !out_ok || !entry_ok then (false, none)
  else if !heap_ok then (false, none)
  else
    let stop_req := (InterlockedExchange 0 0).2
    let state := (InterlockedExchange 0 RTOS_TASK_NEW).2
    match CreateEvent event_ok true false with
    | none => (false, none)
    | some run_event =>
        if !thread_ok then (false, none)
        else
          (true, some
            { thread := { suspendCount := 1, pc := Pc.L144, tls_self := false }
              stop_req := stop_req
              state := state
              run_event := run_event
              thread_open := true
              run_event_open := true
              allocated := true })

/-- Line 193 of `rtos_task_start`, the compare-exchange on `state`: the value
it returns and the task afterwards. -/
def rtos_task_start_l193 (t : rtos_task_t) : Int × rtos_task_t :=
  let c := InterlockedCompareExchange t.state RTOS_TASK_NEW RTOS_TASK_NEW
  (c.1, { t with state := c.2 })

/-- Line 195 of `rtos_task_start`: `SetEvent(t->run_event)`. -/
def rtos_task_start_l195 (t : rtos_task_t) : rtos_task_t :=
  { t with run_event := SetEvent t.run_event }

/-- Line 196 of `rtos_task_start`: `ResumeThread` and the value returned.
`resume_ok` is the outcome of `ResumeThread`. -/
def rtos_task_start_l196 (t : rtos_task_t) (resume_ok : Bool) : Bool × rtos_task_t :=
  let r := ResumeThread t.thread resume_ok
  (decide (r.1 ≠ 4294967295), { t with thread := r.2 })

/-- `rtos_task_start` (lines 191-197) run without interruption: the return
value and the task afterwards. -/
def rtos_task_start (t : Option rtos_task_t) (resume_ok : Bool) :
    Bool × Option rtos_task_t :=
  match t with
  | none => (false, none)
  | some t =>
      let c := rtos_task_start_l193 t
      if c.1 ≠ RTOS_TASK_NEW then (false, some c.2)
      else
        let r := rtos_task_start_l196 (rtos_task_start_l195 c.2) resume_ok
        (r.1, some r.2)

/-- Line 202 of `rtos_task_stop`: the store of 1 into `stop_req`. -/
def rtos_task_stop_l202 (t : rtos_task_t) : rtos_task_t :=
  { t with stop_req := (InterlockedExchange t.stop_req 1).2 }

/-- Line 203 of `rtos_task_stop`: `SetEvent(t->run_event)`. -/
def rtos_task_stop_l203 (t : rtos_task_t) : rtos_task_t :=
  { t with run_event := SetEvent t.run_event }

/-- `rtos_task_stop` (lines 200-204) run without interruption. -/
def rtos_task_stop (t : Option rtos_task_t) : Option rtos_task_t :=
  match t with
  | none => none
  | some t => some (rtos_task_stop_l203 (rtos_task_stop_l202 t))

/-- `rtos_task_delete` (lines 207-214) over any host wait
`WaitForSingleObject`, which is handed the thread and the timeout in
milliseconds: the task afterwards; the outer `none` is the call never
returning.  The value of the wait is not looked at. -/
def rtos_task_delete_with (WaitForSingleObject : Thread → Nat → Option WaitResult)
    (t : Option rtos_task_t) (join_timeout_ticks : Nat) : Option (Option rtos_task_t) :=
  match t with
  | none => some none
  | some t =>
      let to_ := rtos_task_delete_to join_timeout_ticks
      match WaitForSingleObject t.thread to_ with
      | none => none
      | some _ =>
          let t1 := { t with thread_open := false }
          let t2 := { t1 with run_event_open := false }
          some (some { t2 with allocated := false })

/-- `rtos_task_delete` (lines 207-214) on the host wait of this model. -/
def rtos_task_delete (t : Option rtos_task_t) (join_timeout_ticks : Nat) :
    Option (Option rtos_task_t) :=
  rtos_task_delete_with WaitForSingleObject_thread t join_timeout_ticks

/-- A host wait on a thread that returns, with a timeout, only when it is
handed exactly `ms` milliseconds, and never returns otherwise. -/
def wait_thread_exactly (ms : Nat) (_thr : Thread) (dwMilliseconds : Nat) :
    Option WaitResult :=
  if dwMilliseconds = ms then some WaitResult.WAIT_TIMEOUT else none

/-- One statement of `task_trampoline` (lines 142-155) executed by the backing
thread; `none` when the thread cannot move: it is suspended, it is blocked
at the gate, it is inside the entry body, or it has exited. -/
def task_trampoline (t : rtos_task_t) : Option rtos_task_t :=
  if t.thread.suspendCount ≠ 0 then none
  else
    match t.thread.pc with
    | Pc.L144 => some { t with thread := { t.thread with tls_self := true, pc := Pc.L146 } }
    | Pc.L146 =>
        some { t with state := (InterlockedExchange t.state RTOS_TASK_RUNNING).2
                      thread := { t.thread with pc := Pc.L149 } }
    | Pc.L149 =>
        (WaitForSingleObject_event t.run_event INFINITE).map
          (fun w => { t with run_event := w.2, thread := { t.thread with pc := Pc.L151 } })
    | Pc.L153 =>
        some { t with state := (InterlockedExchange t.state RTOS_TASK_STOPPED).2
                      thread := { t.thread with pc := Pc.exited } }
    | _ => none

/-- The caller's `tls_self` when the caller is the backing thread. -/
def self_of (t : rtos_task_t) : Option rtos_task_t :=
  if t.thread.tls_self then some t else none

/-- What can happen to a task.  Any thread may be inside a call of
`rtos_task_start` or `rtos_task_stop` on it: such a call either runs without
interruption (`task_start`, `task_stop`) or one statement at a time
(`start_l193`, `start_l195`, `start_l196`, `stop_l202`, `stop_l203`), with
anything else in between.  The backing thread executes a statement of
`task_trampoline`, and its entry body polls `rtos_should_stop`, executes a
statement of `rtos_yield`, or returns.  Every schedule of the program is a
sequence of these actions. -/
inductive Action
  | task_start (resume_ok : Bool)
  | task_stop
  | start_l193
  | start_l195
  | start_l196 (resume_ok : Bool)
  | stop_l202
  | stop_l203
  | trampoline
  | entry_should_stop
  | entry_yield
  | entry_return
  | outside_should_stop
  | outside_yield
  deriving DecidableEq

/-- One action on a live task; `none` when the action cannot happen. -/
def step (t : rtos_task_t) : Action → Option rtos_task_t
  | Action.task_start resume_ok => (rtos_task_start (some t) resume_ok).2
  | Action.task_stop => rtos_task_stop (some t)
  | Action.start_l193 => some (rtos_task_start_l193 t).2
  | Action.start_l195 => some (rtos_task_start_l195 t)
  | Action.start_l196 resume_ok => some (rtos_task_start_l196 t resume_ok).2
  | Action.stop_l202 => some (rtos_task_stop_l202 t)
  | Action.stop_l203 => some (rtos_task_stop_l203 t)
  | Action.trampoline => task_trampoline t
  | Action.entry_should_stop =>
      if t.thread.suspendCount = 0 ∧ t.thread.pc = Pc.L151 then
        match (rtos_should_stop (self_of t)).2 with
        | some t1 => some t1
        | none => some t
      else none
  | Action.entry_yield =>
      if t.thread.suspendCount ≠ 0 then none
      else
        match t.thread.pc with
        | Pc.L151 =>
            if t.thread.tls_self then
              some { t with run_event := ResetEvent t.run_event
                            thread := { t.thread with pc := Pc.Y131 } }
            else some t
        | Pc.Y131 => some { t with thread := { t.thread with pc := Pc.Y132 } }
        | Pc.Y132 =>
            some { t with run_event := SetEvent t.run_event
                          thread := { t.thread with pc := Pc.L151 } }
        | _ => none
  | Action.entry_return =>
      if t.thread.suspendCount = 0 ∧ t.thread.pc = Pc.L151 then
        some { t with thread := { t.thread with pc := Pc.L153 } }
      else none
  | Action.outside_should_stop =>
      match (rtos_should_stop none).2 with
      | some t1 => some t1
      | none => some t
  | Action.outside_yield =>
      match rtos_yield none with
      | some t1 => some t1
      | none => some t

/-- A sequence of actions on a task, left to right. -/
def run (t : rtos_task_t) : List Action → Option rtos_task_t
  | [] => some t
  | a :: rest => (step t a).bind (fun t1 => run t1 rest)

/-- A call of `rtos_task_start` on a live task made one statement at a time:
the actions `after_check` happen between line 193 and line 195, the actions
`after_set` between line 195 and line 196.  The result is the return value
and the task when the call returns; `none` when a listed action cannot
happen. -/
def rtos_task_start_interleaved (t : rtos_task_t) (after_check after_set : List Action)
    (resume_ok : Bool) : Option (Bool × rtos_task_t) :=
  let c := rtos_task_start_l193 t
  if c.1 ≠ RTOS_TASK_NEW then some (false, c.2)
  else
    (run c.2 after_check).bind (fun t1 =>
      (run (rtos_task_start_l195 t1) after_set).bind (fun t2 =>
        some (rtos_task_start_l196 t2 resume_ok)))

/-- The task a successful `rtos_task_create` hands back. -/
def fresh : rtos_task_t :=
  { thread := { suspendCount := 1, pc := Pc.L144, tls_self := false }
    stop_req := 0
    state := RTOS_TASK_NEW
    run_event := { manualReset := true, signaled := false }
    thread_open := true
    run_event_open := true
    allocated := true }

/-! ## Invariants -/

/-- An event struct that holds an open handle to a manual-reset event. -/
def manual_event (ev : Option rtos_event_t) : Bool :=
  match ev with
  | some { h := some e } => e.manualReset
  | _ => false

/-- The value the `state` field holds while the backing thread stands at a
given position: `task_trampoline` is its only writer. -/
def Pc.expectedState : Pc → Int
  | Pc.L144 => RTOS_TASK_NEW
  | Pc.L146 => RTOS_TASK_NEW
  | Pc.exited => RTOS_TASK_STOPPED
  | _ => RTOS_TASK_RUNNING

/-- The positions at which the backing thread has not passed the start gate. -/
def Pc.beforeGate : Pc → Bool
  | Pc.L144 => true
  | Pc.L146 => true
  | Pc.L149 => true
  | _ => false

/-- What holds of a task in every state reachable after `rtos_task_create`:
the `state` field follows the thread position, the thread was suspended at
most once and only before its first statement, and `tls_self` is set from the
second statement on. -/
def lifecycle_inv (t : rtos_task_t) : Prop :=
  t.state = t.thread.pc.expectedState ∧
  t.thread.suspendCount ≤ 1 ∧
  (t.thread.suspendCount = 1 → t.thread.pc = Pc.L144) ∧
  (t.thread.pc ≠ Pc.L144 → t.thread.tls_self = true)

/-- What holds in addition once a call of `rtos_task_start` has succeeded: the
thread is not suspended and the gate is signaled until the thread has passed
it. -/
def started_inv (t : rtos_task_t) : Prop :=
  lifecycle_inv t ∧
  t.thread.suspendCount = 0 ∧
  (t.thread.pc.beforeGate = true → t.run_event.signaled = true)

instance (t : rtos_task_t) : Decidable (lifecycle_inv t) := by
  unfold lifecycle_inv
  infer_instance

/-- What holds from the `SetEvent` of a call of `rtos_task_start` on: the gate
is signaled until the thread has passed it. -/
def gate_inv (t : rtos_task_t) : Prop :=
  lifecycle_inv t ∧
  (t.thread.pc.beforeGate = true → t.run_event.signaled = true)

instance (t : rtos_task_t) : Decidable (gate_inv t) := by
  unfold gate_inv
  infer_instance

instance (t : rtos_task_t) : Decidable (started_inv t) := by
  unfold started_inv
  infer_instance

/-- A freshly created task after one successful `rtos_task_start`, its thread
not yet run. -/
def started_once : rtos_task_t :=
  { fresh with
    thread := { suspendCount := 0, pc := Pc.L144, tls_self := false }
    run_event := { manualReset := true, signaled := true } }

/-- A started task whose thread has stored Running and stands at the gate. -/
def at_gate : rtos_task_t :=
  { fresh with
    thread := { suspendCount := 0, pc := Pc.L149, tls_self := true }
    state := RTOS_TASK_RUNNING
    run_event := { manualReset := true, signaled := true } }

/-- A started task whose thread is inside its entry body. -/
def in_entry : rtos_task_t :=
  { at_gate with thread := { suspendCount := 0, pc := Pc.L151, tls_self := true } }

/-- The task `in_entry` after `rtos_task_delete`: both handles closed, the
record freed, the thread still inside its entry body. -/
def in_entry_deleted : rtos_task_t :=
  { in_entry with thread_open := false, run_event_open := false, allocated := false }

/-- A started task whose thread is inside `rtos_yield`, past `ResetEvent`,
with the gate signaled again by a later `SetEvent`. -/
def in_yield_gate_set : rtos_task_t :=
  { at_gate with thread := { suspendCount := 0, pc := Pc.Y131, tls_self := true } }

/-- A freshly created task after `rtos_task_stop`. -/
def stop_requested : rtos_task_t :=
  { fresh with
    stop_req := 1
    run_event := { manualReset := true, signaled := true } }

/-- A freshly created task after `rtos_task_stop` and a successful
`rtos_task_start`. -/
def stop_then_started : rtos_task_t :=
  { started_once with stop_req := 1 }

/-- The task `stop_then_started` once its thread has run to the end. -/
def stop_then_exited : rtos_task_t :=
  { stop_then_started with
    thread := { suspendCount := 0, pc := Pc.exited, tls_self := true }
    state := RTOS_TASK_STOPPED }

/-! ## Theorems -/

/-- C7, as stated, fails: for 429496730 ticks the product wraps and the host
is handed 4 ms, not 4294967300 ms, by `rtos_delay_ticks`, by `rtos_wait_event`
and by `rtos_task_delete` (a host wait that returns only for 4 ms returns, one
that returns only for 4294967300 ms does not). -/
theorem C7_counterexample :
    429496730 ≠ UINT32_MAX ∧
    rtos_delay_ticks 429496730 = HostCall.Sleep 4 ∧
    rtos_wait_event_with (wait_event_exactly 4)
      (some { h := some { manualReset := true, signaled := false } }) 429496730
      = some (false, some { h := some { manualReset := true, signaled := false } }) ∧
    rtos_wait_event_with (wait_event_exactly (10 * 429496730))
      (some { h := some { manualReset := true, signaled := false } }) 429496730 = none ∧
    (rtos_task_delete_with (wait_thread_exactly 4) (some in_entry) 429496730).isSome = true ∧
    rtos_task_delete_with (wait_thread_exactly (10 * 429496730)) (some in_entry) 429496730
      = none ∧
    (4 : Nat) ≠ 10 * 429496730 := by
  decide

/-- C7, amended: for every tick count `n` other than the sentinel,
`rtos_delay_ticks` hands `Sleep`, and `rtos_wait_event` and `rtos_task_delete`
hand whatever host wait they run on, `(10 * n) mod 2^32` milliseconds, which is
exactly `10 * n` precisely when `n ≤ 429496729`; for the sentinel they hand it
`INFINITE`. -/
theorem C7_tick_unit (n : Nat) :
    (n ≠ UINT32_MAX →
      rtos_delay_ticks n = HostCall.Sleep ((10 * n) % 4294967296) ∧
      (∀ (W : Event → Nat → Option (WaitResult × Event)) (e : Event),
        rtos_wait_event_with W (some { h := some e }) n
          = (W e ((10 * n) % 4294967296)).map
              (fun w => (decide (w.1 = WaitResult.WAIT_OBJECT_0), some { h := some w.2 }))) ∧
      (∀ e : Event,
        rtos_wait_event (some { h := some e }) n
          = (WaitForSingleObject_event e ((10 * n) % 4294967296)).map
              (fun w => (decide (w.1 = WaitResult.WAIT_OBJECT_0), some { h := some w.2 }))) ∧
      (∀ (W : Thread → Nat → Option WaitResult) (t : rtos_task_t),
        (rtos_task_delete_with W (some t) n).isSome
          = (W t.thread ((10 * n) % 4294967296)).isSome) ∧
      (∀ t : rtos_task_t,
        (rtos_task_delete (some t) n).isSome
          = (WaitForSingleObject_thread t.thread ((10 * n) % 4294967296)).isSome) ∧
      ((10 * n) % 4294967296 = 10 * n ↔ n ≤ 429496729)) ∧
    (rtos_delay_ticks UINT32_MAX = HostCall.Sleep INFINITE ∧
      (∀ (W : Event → Nat → Option (WaitResult × Event)) (e : Event),
        rtos_wait_event_with W (some { h := some e }) UINT32_MAX
          = (W e INFINITE).map
              (fun w => (decide (w.1 = WaitResult.WAIT_OBJECT_0), some { h := some w.2 }))) ∧
      (∀ (W : Thread → Nat → Option WaitResult) (t : rtos_task_t),
        (rtos_task_delete_with W (some t) UINT32_MAX).isSome
          = (W t.thread INFINITE).isSome)) := by
  have hdel : ∀ (W : Thread → Nat → Option WaitResult) (t : rtos_task_t) (k : Nat),
      (rtos_task_delete_with W (some t) k).isSome
        = (W t.thread (rtos_task_delete_to k)).isSome := by
    intro W t k
    simp only [rtos_task_delete_with]
    cases W t.thread (rtos_task_delete_to k) <;> rfl
  refine ⟨fun h => ?_, by decide, fun W e => ?_, fun W t => ?_⟩
  · have hm : n * 10 = 10 * n := Nat.mul_comm n 10
    have hw : rtos_wait_event_to n = (10 * n) % 4294967296 := by
      simp [rtos_wait_event_to, h, mul_u32, hm]
    have hd : rtos_task_delete_to n = (10 * n) % 4294967296 := by
      simp [rtos_task_delete_to, h, mul_u32, hm]
    refine ⟨?_, ?_, ?_, ?_, ?_, ?_⟩
    · simp [rtos_delay_ticks, h, mul_u32, hm]
    · intro W e
      simp only [rtos_wait_event_with, hw]
    · intro e
      simp only [rtos_wait_event, rtos_wait_event_with, hw]
    · intro W t
      rw [hdel, hd]
    · intro t
      unfold rtos_task_delete
      rw [hdel, hd]
    · omega
  · simp only [rtos_wait_event_with]
    rfl
  · rw [hdel]
    rfl

/-- Witness for C7: 50 ticks (the delay of the demo task A) are 500 ms. -/
theorem C7_tick_unit_witness :
    rtos_delay_ticks 50 = HostCall.Sleep ((10 * 50) % 4294967296) ∧
    (∀ (W : Event → Nat → Option (WaitResult × Event)) (e : Event),
      rtos_wait_event_with W (some { h := some e }) 50
        = (W e ((10 * 50) % 4294967296)).map
            (fun w => (decide (w.1 = WaitResult.WAIT_OBJECT_0), some { h := some w.2 }))) ∧
    (∀ e : Event,
      rtos_wait_event (some { h := some e }) 50
        = (WaitForSingleObject_event e ((10 * 50) % 4294967296)).map
            (fun w => (decide (w.1 = WaitResult.WAIT_OBJECT_0), some { h := some w.2 }))) ∧
    (∀ (W : Thread → Nat → Option WaitResult) (t : rtos_task_t),
      (rtos_task_delete_with W (some t) 50).isSome
        = (W t.thread ((10 * 50) % 4294967296)).isSome) ∧
    (∀ t : rtos_task_t,
      (rtos_task_delete (some t) 50).isSome
        = (WaitForSingleObject_thread t.thread ((10 * 50) % 4294967296)).isSome) ∧
    ((10 * 50) % 4294967296 = 10 * 50 ↔ 50 ≤ 429496729) :=
  (C7_tick_unit 50).1 (by decide)

/-- C10: a tick count other than the sentinel never becomes the host's
`INFINITE`: the wrapped product `(n * 10) mod 2^32` is even, `0xFFFFFFFF` is
odd. -/
theorem C10_finite_stays_finite (n : Nat) (h : n ≠ UINT32_MAX) :
    rtos_wait_event_to n ≠ INFINITE ∧
    rtos_task_delete_to n ≠ INFINITE ∧
    rtos_delay_ticks n ≠ HostCall.Sleep INFINITE ∧
    mul_u32 n 10 ≠ 4294967295 := by
  have key : mul_u32 n 10 ≠ 4294967295 := by
    unfold mul_u32
    omega
  refine ⟨?_, ?_, ?_, key⟩
  · simpa [rtos_wait_event_to, h, INFINITE] using key
  · simpa [rtos_task_delete_to, h, INFINITE] using key
  · simpa [rtos_delay_ticks, h, INFINITE] using key

/-- Witness for C10 at the largest finite tick count, `UINT32_MAX - 1`. -/
theorem C10_finite_stays_finite_witness :
    rtos_wait_event_to 4294967294 ≠ INFINITE ∧
    rtos_task_delete_to 4294967294 ≠ INFINITE ∧
    rtos_delay_ticks 4294967294 ≠ HostCall.Sleep INFINITE ∧
    mul_u32 4294967294 10 ≠ 4294967295 :=
  C10_finite_stays_finite 4294967294 (by decide)

/-! ### Tick clock -/

/-- As long as `rtos_start` is not among the actions, the counter stays 0 and
no driver exists. -/
theorem Clock.run_without_start (acts : List ClockAction) :
    ∀ c c1 : Clock, c.g_tick = 0 → c.drivers = 0 →
      (∀ a ∈ acts, ClockAction.isStart a = false) →
      c.run acts = some c1 → c1.g_tick = 0 ∧ c1.drivers = 0 := by
  induction acts with
  | nil =>
      intro c c1 hg hd _ hrun
      simp [Clock.run] at hrun
      subst hrun
      exact ⟨hg, hd⟩
  | cons a rest ih =>
      intro c c1 hg hd hns hrun
      have ha : ClockAction.isStart a = false := hns a (List.mem_cons_self _ _)
      have hrest : ∀ b ∈ rest, ClockAction.isStart b = false :=
        fun b hb => hns b (List.mem_cons_of_mem _ hb)
      cases a with
      | get_ticks =>
          simp [Clock.run, Clock.step, rtos_get_ticks, InterlockedCompareExchange64, hg] at hrun
          exact ih _ c1 (by simp) (by simpa using hd) hrest hrun
      | delay_ticks n =>
          simp [Clock.run, Clock.step] at hrun
          exact ih _ c1 hg hd hrest hrun
      | rtos_start a b d => simp [ClockAction.isStart] at ha
      | timer_fires => simp [Clock.run, Clock.step, hd] at hrun

/-- C9, as stated, fails at the top of the 64-bit counter: with the counter at
`2^64 - 1` a timer firing leaves it at 0, so the value `rtos_get_ticks` returns
goes from `2^64 - 1` to 0 instead of rising by 1. -/
theorem C9_counterexample :
    (rtos_get_ticks 18446744073709551615).1 = 18446744073709551615 ∧
    tick_thread_proc_loop WaitResult.WAIT_OBJECT_0 18446744073709551615 = some 0 ∧
    (rtos_get_ticks 0).1 = 0 ∧
    (0 : Nat) ≠ 18446744073709551615 + 1 := by
  decide

/-- C9, amended: `rtos_get_ticks` returns the counter and leaves it as it was,
for every 64-bit value including 0; before any `rtos_start` it returns 0; a
timer firing handled by the driver loop raises the value returned by 1 modulo
`2^64`: by exactly 1 below `2^64 - 1`, and to 0 from `2^64 - 1`. -/
theorem C9_get_ticks (v : Nat) (hv : v < 18446744073709551616) :
    rtos_get_ticks v = (v, v) ∧
    (∀ acts c, (∀ a ∈ acts, ClockAction.isStart a = false) →
      Clock.boot.run acts = some c → rtos_get_ticks c.g_tick = (0, 0)) ∧
    (∃ v1, tick_thread_proc_loop WaitResult.WAIT_OBJECT_0 v = some v1 ∧
      (∀ c : Clock, c.g_tick = v → c.drivers ≠ 0 →
        c.step ClockAction.timer_fires = some { c with g_tick := v1 }) ∧
      (rtos_get_ticks v1).1 = ((rtos_get_ticks v).1 + 1) % 18446744073709551616 ∧
      (v ≠ 18446744073709551615 → (rtos_get_ticks v1).1 = (rtos_get_ticks v).1 + 1) ∧
      (v = 18446744073709551615 → (rtos_get_ticks v1).1 = 0)) := by
  have hget : ∀ w : Nat, w < 18446744073709551616 → rtos_get_ticks w = (w, w) := by
    intro w hw
    have h1 : w % 18446744073709551616 = w := Nat.mod_eq_of_lt hw
    by_cases h0 : w = 0
    · subst h0; rfl
    · simp [rtos_get_ticks, InterlockedCompareExchange64, h0, h1]
  refine ⟨hget v hv, ?_, ?_⟩
  · intro acts c hns hrun
    have h := Clock.run_without_start acts Clock.boot c rfl rfl hns hrun
    rw [h.1]
    rfl
  · refine ⟨(v + 1) % 18446744073709551616, ?_, ?_, ?_, ?_, ?_⟩
    · simp [tick_thread_proc_loop, InterlockedAdd64]
    · intro c hc hd
      simp [Clock.step, hd, tick_thread_proc_loop, InterlockedAdd64, hc]
    · rw [hget _ (Nat.mod_lt _ (by decide)), hget v hv]
    · intro hne
      rw [hget _ (Nat.mod_lt _ (by decide)), hget v hv]
      show (v + 1) % 18446744073709551616 = v + 1
      omega
    · intro he
      rw [hget _ (Nat.mod_lt _ (by decide))]
      show (v + 1) % 18446744073709551616 = 0
      omega

/-- Witness for C9 at the counter value 41. -/
theorem C9_get_ticks_witness :
    rtos_get_ticks 41 = (41, 41) ∧
    (∀ acts c, (∀ a ∈ acts, ClockAction.isStart a = false) →
      Clock.boot.run acts = some c → rtos_get_ticks c.g_tick = (0, 0)) ∧
    (∃ v1, tick_thread_proc_loop WaitResult.WAIT_OBJECT_0 41 = some v1 ∧
      (∀ c : Clock, c.g_tick = 41 → c.drivers ≠ 0 →
        c.step ClockAction.timer_fires = some { c with g_tick := v1 }) ∧
      (rtos_get_ticks v1).1 = ((rtos_get_ticks 41).1 + 1) % 18446744073709551616 ∧
      (41 ≠ 18446744073709551615 → (rtos_get_ticks v1).1 = (rtos_get_ticks 41).1 + 1) ∧
      (41 = 18446744073709551615 → (rtos_get_ticks v1).1 = 0)) :=
  C9_get_ticks 41 (by decide)

/-! ### Events -/

/-- Setting, resetting and waiting keep an event struct a manual-reset
event. -/
theorem eventRun_manual (ops : List EventOp) :
    ∀ ev ev1 : Option rtos_event_t, manual_event ev = true →
      eventRun ev ops = some ev1 → manual_event ev1 = true := by
  induction ops with
  | nil =>
      intro ev ev1 hm hrun
      simp [eventRun] at hrun
      subst hrun
      exact hm
  | cons op rest ih =>
      intro ev ev1 hm hrun
      simp only [eventRun, Option.bind_eq_some] at hrun
      obtain ⟨ev2, hop, hrest⟩ := hrun
      refine ih ev2 ev1 ?_ hrest
      rcases ev with _ | ⟨⟨_ | ⟨mr, sg⟩⟩⟩
      · simp [manual_event] at hm
      · simp [manual_event] at hm
      · simp only [manual_event] at hm
        subst hm
        cases op with
        | set =>
            simp [EventOp.apply, rtos_event_set, SetEvent] at hop
            subst hop
            rfl
        | reset =>
            simp [EventOp.apply, rtos_event_reset, ResetEvent] at hop
            subst hop
            rfl
        | wait n =>
            cases sg
            · by_cases hinf : rtos_wait_event_to n = INFINITE
              · simp [EventOp.apply, rtos_wait_event, rtos_wait_event_with, WaitForSingleObject_event, hinf] at hop
              · simp [EventOp.apply, rtos_wait_event, rtos_wait_event_with, WaitForSingleObject_event, hinf] at hop
                subst hop
                rfl
            · simp [EventOp.apply, rtos_wait_event, rtos_wait_event_with, WaitForSingleObject_event] at hop
              subst hop
              rfl

/-- A wait on a signaled manual-reset event returns true and changes
nothing. -/
theorem rtos_wait_event_signaled (ev : Option rtos_event_t) (hm : manual_event ev = true)
    (n : Nat) : rtos_wait_event (rtos_event_set ev) n = some (true, rtos_event_set ev) := by
  rcases ev with _ | ⟨⟨_ | ⟨mr, sg⟩⟩⟩
  · simp [manual_event] at hm
  · simp [manual_event] at hm
  · simp only [manual_event] at hm
    subst hm
    simp [rtos_event_set, rtos_wait_event, rtos_wait_event_with, WaitForSingleObject_event, SetEvent]

/-- C5: on an event made by `rtos_event_create` (and then used in any way),
after `rtos_event_set` every wait returns true for every timeout, 0 included,
and leaves the event signaled, so any run of consecutive waits returns true
throughout; after `rtos_event_reset` a wait with a finite timeout returns
false. -/
theorem C5_manual_reset_broadcast (ev0 : rtos_event_t) (earlier : List EventOp)
    (ev : Option rtos_event_t)
    (hrun : eventRun (rtos_event_create true (some ev0)).2 earlier = some ev) :
    (rtos_event_create true (some ev0)).1 = true ∧
    (∀ n, rtos_wait_event (rtos_event_set ev) n = some (true, rtos_event_set ev)) ∧
    (∀ ns, waitAll (rtos_event_set ev) ns
      = some (List.replicate ns.length true, rtos_event_set ev)) ∧
    (∀ n, n ≠ UINT32_MAX →
      rtos_wait_event (rtos_event_reset ev) n = some (false, rtos_event_reset ev)) := by
  have hm : manual_event ev = true :=
    eventRun_manual earlier _ ev (by simp [rtos_event_create, CreateEvent, manual_event]) hrun
  refine ⟨by simp [rtos_event_create, CreateEvent], rtos_wait_event_signaled ev hm, ?_, ?_⟩
  · intro ns
    induction ns with
    | nil => simp [waitAll]
    | cons n rest ih =>
        simp [waitAll, rtos_wait_event_signaled ev hm n, ih, List.replicate_succ]
  · intro n hn
    have hfin : mul_u32 n 10 ≠ INFINITE := by
      unfold mul_u32 INFINITE
      omega
    rcases ev with _ | ⟨⟨_ | ⟨mr, sg⟩⟩⟩
    · simp [manual_event] at hm
    · simp [manual_event] at hm
    · simp [rtos_event_reset, rtos_wait_event, rtos_wait_event_with, WaitForSingleObject_event, ResetEvent,
        rtos_wait_event_to, hn, hfin]

/-- Witness for C5: the event of the demo, set, reset and waited on before. -/
theorem C5_manual_reset_broadcast_witness :
    (rtos_event_create true (some { h := none })).1 = true ∧
    (∀ n, rtos_wait_event (rtos_event_set (some { h := some { manualReset := true, signaled := false } })) n
      = some (true, rtos_event_set (some { h := some { manualReset := true, signaled := false } }))) ∧
    (∀ ns, waitAll (rtos_event_set (some { h := some { manualReset := true, signaled := false } })) ns
      = some (List.replicate ns.length true,
          rtos_event_set (some { h := some { manualReset := true, signaled := false } }))) ∧
    (∀ n, n ≠ UINT32_MAX →
      rtos_wait_event (rtos_event_reset (some { h := some { manualReset := true, signaled := false } })) n
        = some (false,
            rtos_event_reset (some { h := some { manualReset := true, signaled := false } }))) :=
  C5_manual_reset_broadcast { h := none }
    [EventOp.set, EventOp.wait 300, EventOp.reset, EventOp.wait 0]
    (some { h := some { manualReset := true, signaled := false } }) (by decide)

/-! ### Tasks: single calls -/

/-- A successful `rtos_task_create` hands back the record `fresh`. -/
theorem rtos_task_create_ok (out_ok entry_ok heap_ok event_ok thread_ok : Bool)
    (t0 : rtos_task_t)
    (h : rtos_task_create out_ok entry_ok heap_ok event_ok thread_ok = (true, some t0)) :
    t0 = fresh := by
  cases out_ok <;> cases entry_ok <;> cases heap_ok <;> cases event_ok <;> cases thread_ok <;>
    simp [rtos_task_create, CreateEvent, InterlockedExchange, fresh] at h ⊢
  exact h.symm

/-- C8: on a task in any lifecycle state one call of `rtos_task_stop` leaves
`stop_req = 1` and the start gate signaled, and changes neither the `state`
field nor the backing thread; a second call gives the same task as one call. -/
theorem C8_stop_idempotent (t : rtos_task_t) :
    ∃ t1, rtos_task_stop (some t) = some t1 ∧
      t1.stop_req = 1 ∧
      t1.run_event.signaled = true ∧
      t1.state = t.state ∧
      t1.thread = t.thread ∧
      rtos_task_stop (rtos_task_stop (some t)) = rtos_task_stop (some t) := by
  refine ⟨_, rfl, ?_, ?_, ?_, ?_, ?_⟩ <;>
    simp [rtos_task_stop, rtos_task_stop_l202, rtos_task_stop_l203, InterlockedExchange, SetEvent]

/-- C1: the code at a timed-out delete.  A started task whose thread is inside
its entry body is deleted with a timeout of 1 tick: the wait on the thread
times out, yet after the call the thread handle and the start gate are closed
and the record is freed, where the claim keeps all three; the thread goes on
and its store of Stopped (line 153) lands in the freed record. -/
theorem C1_delete_timeout_evaluated :
    run fresh [Action.task_start true, Action.trampoline, Action.trampoline, Action.trampoline]
      = some in_entry ∧
    WaitForSingleObject_thread in_entry.thread (rtos_task_delete_to 1)
      = some WaitResult.WAIT_TIMEOUT ∧
    rtos_task_delete (some in_entry) 1 = some (some in_entry_deleted) ∧
    in_entry_deleted.thread_open = false ∧
    in_entry_deleted.run_event_open = false ∧
    in_entry_deleted.allocated = false ∧
    in_entry_deleted.thread.pc = Pc.L151 ∧
    run in_entry_deleted [Action.entry_return, Action.trampoline]
      = some { in_entry_deleted with
          thread := { suspendCount := 0, pc := Pc.exited, tls_self := true }
          state := RTOS_TASK_STOPPED } := by
  decide

/-! ### Tasks: reachable states -/

/-- The compare-exchange with equal exchange and comparand is a read: the
value stored is the value found. -/
theorem InterlockedCompareExchange_read (d c : Int) :
    InterlockedCompareExchange d c c = (d, d) := by
  unfold InterlockedCompareExchange
  split <;> simp_all

/-- `rtos_should_stop` called by the task itself reads `stop_req` and changes
nothing. -/
theorem rtos_should_stop_self (t : rtos_task_t) :
    rtos_should_stop (some t) = (decide (t.stop_req ≠ 0), some t) := by
  simp [rtos_should_stop, InterlockedCompareExchange_read]

/-- A poll of `rtos_should_stop` from the entry body leaves the task as it
is. -/
theorem step_entry_should_stop (t : rtos_task_t) :
    step t Action.entry_should_stop
      = if t.thread.suspendCount = 0 ∧ t.thread.pc = Pc.L151 then some t else none := by
  unfold step self_of
  cases htls : t.thread.tls_self
  · simp [rtos_should_stop]
  · simp [rtos_should_stop_self]

/-- `rtos_task_start` spelled out: refused unless the state is New, otherwise
the gate is signaled and the thread resumed. -/
theorem rtos_task_start_some (t : rtos_task_t) (resume_ok : Bool) :
    rtos_task_start (some t) resume_ok
      = if t.state ≠ RTOS_TASK_NEW then (false, some t)
        else
          (decide ((ResumeThread t.thread resume_ok).1 ≠ 4294967295),
            some { t with run_event := SetEvent t.run_event
                          thread := (ResumeThread t.thread resume_ok).2 }) := by
  simp only [rtos_task_start, rtos_task_start_l193, rtos_task_start_l195, rtos_task_start_l196, InterlockedCompareExchange_read]

/-- An invariant of single actions is an invariant of sequences of actions. -/
theorem run_preserves (P : rtos_task_t → Prop)
    (hstep : ∀ t a t1, P t → step t a = some t1 → P t1) (acts : List Action) :
    ∀ t t1, P t → run t acts = some t1 → P t1 := by
  induction acts with
  | nil =>
      intro t t1 hP hrun
      simp [run] at hrun
      subst hrun
      exact hP
  | cons a rest ih =>
      intro t t1 hP hrun
      simp only [run, Option.bind_eq_some] at hrun
      obtain ⟨t2, h2, hrest⟩ := hrun
      exact ih t2 t1 (hstep t a t2 hP h2) hrest

/-- Every action keeps the lifecycle invariant and does not lower the `state`
field. -/
theorem step_lifecycle (t : rtos_task_t) (a : Action) (t1 : rtos_task_t)
    (h : lifecycle_inv t) (hs : step t a = some t1) :
    lifecycle_inv t1 ∧ t.state ≤ t1.state := by
  obtain ⟨⟨sc, pc, tls⟩, sr, st, ev, o1, o2, o3⟩ := t
  obtain ⟨h1, h2, h3, h4⟩ := h
  simp only at h1 h2 h3 h4
  subst h1
  cases a with
  | task_start r =>
      simp only [step, rtos_task_start_some] at hs
      split at hs
      · simp at hs
        subst hs
        exact ⟨⟨rfl, h2, h3, h4⟩, le_refl _⟩
      · cases r <;> simp [ResumeThread] at hs <;> subst hs
        · exact ⟨⟨rfl, h2, h3, h4⟩, le_refl _⟩
        · refine ⟨⟨rfl, ?_, ?_, h4⟩, le_refl _⟩
          · show sc - 1 ≤ 1
            omega
          · intro hc
            exfalso
            change sc - 1 = 1 at hc
            omega
  | task_stop =>
      simp [step, rtos_task_stop, rtos_task_stop_l202, rtos_task_stop_l203, InterlockedExchange] at hs
      subst hs
      exact ⟨⟨rfl, h2, h3, h4⟩, le_refl _⟩
  | start_l193 =>
      simp [step, rtos_task_start_l193, InterlockedCompareExchange_read] at hs
      subst hs
      exact ⟨⟨rfl, h2, h3, h4⟩, le_refl _⟩
  | start_l195 =>
      simp [step, rtos_task_start_l195] at hs
      subst hs
      exact ⟨⟨rfl, h2, h3, h4⟩, le_refl _⟩
  | start_l196 r =>
      cases r <;> simp [step, rtos_task_start_l196, ResumeThread] at hs <;> subst hs
      · exact ⟨⟨rfl, h2, h3, h4⟩, le_refl _⟩
      · refine ⟨⟨rfl, ?_, ?_, h4⟩, le_refl _⟩
        · show sc - 1 ≤ 1
          omega
        · intro hc
          exfalso
          change sc - 1 = 1 at hc
          omega
  | stop_l202 =>
      simp [step, rtos_task_stop_l202, InterlockedExchange] at hs
      subst hs
      exact ⟨⟨rfl, h2, h3, h4⟩, le_refl _⟩
  | stop_l203 =>
      simp [step, rtos_task_stop_l203] at hs
      subst hs
      exact ⟨⟨rfl, h2, h3, h4⟩, le_refl _⟩
  | trampoline =>
      simp only [step] at hs
      cases pc <;> simp [task_trampoline, InterlockedExchange, WaitForSingleObject_event] at hs
      · obtain ⟨rfl, rfl⟩ := hs
        simp [lifecycle_inv, Pc.expectedState]
      · obtain ⟨rfl, rfl⟩ := hs
        simp_all [lifecycle_inv, Pc.expectedState, RTOS_TASK_NEW, RTOS_TASK_RUNNING]
      · obtain ⟨rfl, _, rfl⟩ := hs
        simp_all [lifecycle_inv, Pc.expectedState]
      · obtain ⟨rfl, rfl⟩ := hs
        simp_all [lifecycle_inv, Pc.expectedState, RTOS_TASK_STOPPED, RTOS_TASK_RUNNING]
  | entry_should_stop =>
      rw [step_entry_should_stop] at hs
      split at hs
      · simp at hs
        subst hs
        exact ⟨⟨rfl, h2, h3, h4⟩, le_refl _⟩
      · simp at hs
  | entry_yield =>
      simp only [step] at hs
      cases pc <;> simp at hs
      · have htls : tls = true := h4 (by decide)
        subst htls
        obtain ⟨rfl, hs⟩ := hs
        simp at hs
        subst hs
        simp [lifecycle_inv, Pc.expectedState]
      · obtain ⟨rfl, rfl⟩ := hs
        simp_all [lifecycle_inv, Pc.expectedState]
      · obtain ⟨rfl, rfl⟩ := hs
        simp_all [lifecycle_inv, Pc.expectedState]
  | entry_return =>
      simp only [step] at hs
      cases pc <;> simp at hs
      obtain ⟨rfl, rfl⟩ := hs
      simp_all [lifecycle_inv, Pc.expectedState]
  | outside_should_stop =>
      simp [step, rtos_should_stop] at hs
      subst hs
      exact ⟨⟨rfl, h2, h3, h4⟩, le_refl _⟩
  | outside_yield =>
      simp [step, rtos_yield] at hs
      subst hs
      exact ⟨⟨rfl, h2, h3, h4⟩, le_refl _⟩

/-- What a single action can do to the stop flag, the suspend count and the
start gate: the flag is kept or set to 1, the count does not grow, and while
the thread has not passed the gate a signaled gate stays signaled. -/
theorem step_effect (t : rtos_task_t) (a : Action) (t1 : rtos_task_t)
    (hs : step t a = some t1) :
    (t1.stop_req = t.stop_req ∨ t1.stop_req = 1) ∧
    t1.thread.suspendCount ≤ t.thread.suspendCount ∧
    (t1.thread.pc.beforeGate = true →
      t.thread.pc.beforeGate = true ∧
      (t.run_event.signaled = true → t1.run_event.signaled = true)) := by
  obtain ⟨⟨sc, pc, tls⟩, sr, st, ev, o1, o2, o3⟩ := t
  cases a with
  | task_start r =>
      simp only [step, rtos_task_start_some] at hs
      split at hs
      · simp at hs
        subst hs
        simp
      · cases r <;> simp [ResumeThread] at hs <;> subst hs <;> simp [SetEvent]
  | task_stop =>
      simp [step, rtos_task_stop, rtos_task_stop_l202, rtos_task_stop_l203, InterlockedExchange] at hs
      subst hs
      simp [SetEvent]
  | start_l193 =>
      simp [step, rtos_task_start_l193, InterlockedCompareExchange_read] at hs
      subst hs
      simp
  | start_l195 =>
      simp [step, rtos_task_start_l195] at hs
      subst hs
      simp [SetEvent]
  | start_l196 r =>
      cases r <;> simp [step, rtos_task_start_l196, ResumeThread] at hs <;> subst hs <;> simp
  | stop_l202 =>
      simp [step, rtos_task_stop_l202, InterlockedExchange] at hs
      subst hs
      simp
  | stop_l203 =>
      simp [step, rtos_task_stop_l203] at hs
      subst hs
      simp [SetEvent]
  | trampoline =>
      simp only [step] at hs
      cases pc <;> simp [task_trampoline, InterlockedExchange, WaitForSingleObject_event] at hs
      · obtain ⟨rfl, rfl⟩ := hs
        simp [Pc.beforeGate]
      · obtain ⟨rfl, rfl⟩ := hs
        simp [Pc.beforeGate]
      · obtain ⟨rfl, _, rfl⟩ := hs
        simp [Pc.beforeGate]
      · obtain ⟨rfl, rfl⟩ := hs
        simp [Pc.beforeGate]
  | entry_should_stop =>
      rw [step_entry_should_stop] at hs
      split at hs
      · simp at hs
        subst hs
        simp
      · simp at hs
  | entry_yield =>
      simp only [step] at hs
      cases pc <;> simp at hs
      · obtain ⟨rfl, hs⟩ := hs
        cases tls <;> simp at hs <;> subst hs <;> simp [Pc.beforeGate]
      · obtain ⟨rfl, rfl⟩ := hs
        simp [Pc.beforeGate]
      · obtain ⟨rfl, rfl⟩ := hs
        simp [Pc.beforeGate]
  | entry_return =>
      simp only [step] at hs
      cases pc <;> simp at hs
      obtain ⟨rfl, rfl⟩ := hs
      simp [Pc.beforeGate]
  | outside_should_stop =>
      simp [step, rtos_should_stop] at hs
      subst hs
      simp
  | outside_yield =>
      simp [step, rtos_yield] at hs
      subst hs
      simp

/-- Every action keeps the invariant of a started task. -/
theorem step_started (t : rtos_task_t) (a : Action) (t1 : rtos_task_t)
    (h : started_inv t) (hs : step t a = some t1) : started_inv t1 := by
  obtain ⟨hl, hsc, hg⟩ := h
  obtain ⟨_, he2, he3⟩ := step_effect t a t1 hs
  refine ⟨(step_lifecycle t a t1 hl hs).1, by omega, fun hb => ?_⟩
  exact (he3 hb).2 (hg (he3 hb).1)

/-- Every action keeps a raised stop flag raised. -/
theorem step_stop_req (t : rtos_task_t) (a : Action) (t1 : rtos_task_t)
    (h : t.stop_req = 1) (hs : step t a = some t1) : t1.stop_req = 1 := by
  rcases (step_effect t a t1 hs).1 with he | he
  · rw [he, h]
  · exact he

/-- Every state reachable from a freshly created task satisfies the lifecycle
invariant. -/
theorem run_lifecycle (acts : List Action) (t : rtos_task_t)
    (hrun : run fresh acts = some t) : lifecycle_inv t := by
  refine run_preserves lifecycle_inv (fun t a t1 hP hs => (step_lifecycle t a t1 hP hs).1)
    acts fresh t ?_ hrun
  simp [lifecycle_inv, fresh, Pc.expectedState]

/-- Along any sequence of actions from a state with the lifecycle invariant
the `state` field does not decrease. -/
theorem run_monotone (acts : List Action) :
    ∀ t t1, lifecycle_inv t → run t acts = some t1 → t.state ≤ t1.state := by
  induction acts with
  | nil =>
      intro t t1 _ hrun
      simp [run] at hrun
      subst hrun
      exact le_refl _
  | cons a rest ih =>
      intro t t1 hP hrun
      simp only [run, Option.bind_eq_some] at hrun
      obtain ⟨t2, h2, hrest⟩ := hrun
      have hstep := step_lifecycle t a t2 hP h2
      exact le_trans hstep.2 (ih t2 t1 hstep.1 hrest)

/-- The `state` field holds New exactly while the thread has not executed
line 146. -/
theorem lifecycle_new_iff (t : rtos_task_t) (h : lifecycle_inv t) :
    t.state = RTOS_TASK_NEW ↔ (t.thread.pc = Pc.L144 ∨ t.thread.pc = Pc.L146) := by
  obtain ⟨h1, _⟩ := h
  rw [h1]
  cases t.thread.pc <;>
    simp [Pc.expectedState, RTOS_TASK_NEW, RTOS_TASK_RUNNING, RTOS_TASK_STOPPED]

/-- A successful `rtos_task_start` on a reachable task leaves a started
task. -/
theorem started_of_start (t1 t2 : rtos_task_t) (r1 : Bool) (hl : lifecycle_inv t1)
    (hfirst : rtos_task_start (some t1) r1 = (true, some t2)) : started_inv t2 := by
  have hstep : step t1 (Action.task_start r1) = some t2 := by
    simp [step, hfirst]
  have hl2 := (step_lifecycle t1 _ t2 hl hstep).1
  rw [rtos_task_start_some] at hfirst
  split at hfirst
  · simp at hfirst
  · cases r1
    · simp [ResumeThread] at hfirst
    · simp [ResumeThread] at hfirst
      obtain ⟨_, hfirst⟩ := hfirst
      subst hfirst
      refine ⟨hl2, ?_, fun _ => ?_⟩
      · have := hl.2.1
        show t1.thread.suspendCount - 1 = 0
        omega
      · rfl

/-- Every action keeps the gate signaled while the thread has not passed
it. -/
theorem step_gate (t : rtos_task_t) (a : Action) (t1 : rtos_task_t)
    (h : gate_inv t) (hs : step t a = some t1) : gate_inv t1 := by
  obtain ⟨hl, hg⟩ := h
  obtain ⟨_, _, he3⟩ := step_effect t a t1 hs
  exact ⟨(step_lifecycle t a t1 hl hs).1, fun hb => (he3 hb).2 (hg (he3 hb).1)⟩

/-- Line 193 reads the `state` field and changes nothing. -/
theorem rtos_task_start_l193_read (t : rtos_task_t) :
    rtos_task_start_l193 t = (t.state, t) := by
  simp [rtos_task_start_l193, InterlockedCompareExchange_read]

/-- On a thread that is not suspended line 196 changes nothing and returns
what the host reports. -/
theorem rtos_task_start_l196_resumed (t : rtos_task_t) (r : Bool)
    (h : t.thread.suspendCount = 0) : rtos_task_start_l196 t r = (r, t) := by
  obtain ⟨⟨sc, pc, tls⟩, sr, st, ev, o1, o2, o3⟩ := t
  simp only at h
  subst h
  cases r <;> simp [rtos_task_start_l196, ResumeThread]

/-- A call of `rtos_task_start` made one statement at a time that returns true
on a reachable task leaves a started task. -/
theorem started_of_interleaved (t1 t2 : rtos_task_t) (a1 b1 : List Action) (r1 : Bool)
    (hl : lifecycle_inv t1)
    (hfirst : rtos_task_start_interleaved t1 a1 b1 r1 = some (true, t2)) :
    started_inv t2 := by
  simp only [rtos_task_start_interleaved, rtos_task_start_l193_read] at hfirst
  split at hfirst
  · simp at hfirst
  · simp only [Option.bind_eq_some] at hfirst
    obtain ⟨tb, hb, tc, hc, hret⟩ := hfirst
    have hlb : lifecycle_inv tb :=
      run_preserves lifecycle_inv (fun u a u1 hP hs => (step_lifecycle u a u1 hP hs).1)
        a1 t1 tb hl hb
    have hgb : gate_inv (rtos_task_start_l195 tb) :=
      ⟨(step_lifecycle tb Action.start_l195 _ hlb rfl).1, fun _ => rfl⟩
    have hgc : gate_inv tc := run_preserves gate_inv step_gate b1 _ tc hgb hc
    have hl2 : lifecycle_inv (rtos_task_start_l196 tc r1).2 :=
      (step_lifecycle tc (Action.start_l196 r1) _ hgc.1 rfl).1
    cases r1
    · simp [rtos_task_start_l196, ResumeThread] at hret
    · simp only [Option.some.injEq] at hret
      have h2 : t2 = (rtos_task_start_l196 tc true).2 := by rw [hret]
      subst h2
      refine ⟨hl2, ?_, ?_⟩
      · have := hgc.1.2.1
        show tc.thread.suspendCount - 1 = 0
        omega
      · exact hgc.2

/-- A call of `rtos_task_start` made one statement at a time on a started
task: it is refused, and changes nothing, when its check finds a state other
than New; it returns what the host reports when its check finds New; and it
leaves a started task. -/
theorem interleaved_on_started (t3 t4 : rtos_task_t) (a b : List Action) (r ret : Bool)
    (h : started_inv t3)
    (hlater : rtos_task_start_interleaved t3 a b r = some (ret, t4)) :
    (t3.state ≠ RTOS_TASK_NEW → ret = false ∧ t4 = t3) ∧
    (t3.state = RTOS_TASK_NEW → ret = r) ∧
    started_inv t4 := by
  simp only [rtos_task_start_interleaved, rtos_task_start_l193_read] at hlater
  split at hlater
  · rename_i hne
    simp only [Option.some.injEq, Prod.mk.injEq] at hlater
    obtain ⟨hr, ht⟩ := hlater
    subst hr ht
    exact ⟨fun _ => ⟨rfl, rfl⟩, fun he => absurd he hne, h⟩
  · rename_i hnew
    simp only [ne_eq, Decidable.not_not] at hnew
    simp only [Option.bind_eq_some] at hlater
    obtain ⟨tb, hb, tc, hc, hret⟩ := hlater
    have hsb : started_inv tb := run_preserves started_inv step_started a t3 tb h hb
    have hsb1 : started_inv (rtos_task_start_l195 tb) :=
      step_started tb Action.start_l195 _ hsb rfl
    have hsc : started_inv tc := run_preserves started_inv step_started b _ tc hsb1 hc
    rw [rtos_task_start_l196_resumed tc r hsc.2.1] at hret
    simp only [Option.some.injEq, Prod.mk.injEq] at hret
    obtain ⟨hr, ht⟩ := hret
    subst hr ht
    exact ⟨fun hne => absurd hnew hne, fun _ => rfl, hsc⟩

/-! ### Tasks: lifecycle and start -/

/-- C6: in every state reachable after `rtos_task_create`, no action
(`rtos_task_start`, `rtos_task_stop`, a statement of `task_trampoline`, a poll
of `rtos_should_stop`, a statement of `rtos_yield`, the return of the entry)
lowers the `state` field in the order New < Running < Stopping < Stopped, and
neither does any sequence of them or a whole call of `rtos_yield`: Running
never goes back to New and Stopped stays Stopped. -/
theorem C6_lifecycle_monotone (out_ok entry_ok heap_ok event_ok thread_ok : Bool)
    (t0 : rtos_task_t)
    (hcreate : rtos_task_create out_ok entry_ok heap_ok event_ok thread_ok = (true, some t0))
    (before : List Action) (t : rtos_task_t) (hreach : run t0 before = some t) :
    RTOS_TASK_NEW < RTOS_TASK_RUNNING ∧ RTOS_TASK_RUNNING < RTOS_TASK_STOPPING ∧
    RTOS_TASK_STOPPING < RTOS_TASK_STOPPED ∧
    (∀ a t1, step t a = some t1 → t.state ≤ t1.state) ∧
    (∀ t1, rtos_yield (self_of t) = some t1 → t1.state = t.state) ∧
    (∀ later t1, run t later = some t1 →
      t.state ≤ t1.state ∧
      (t.state = RTOS_TASK_RUNNING → t1.state ≠ RTOS_TASK_NEW) ∧
      (t.state = RTOS_TASK_STOPPED → t1.state = RTOS_TASK_STOPPED)) := by
  have h0 := rtos_task_create_ok _ _ _ _ _ t0 hcreate
  subst h0
  have hl : lifecycle_inv t := run_lifecycle before t hreach
  refine ⟨by decide, by decide, by decide, ?_, ?_, ?_⟩
  · intro a t1 hs
    exact (step_lifecycle t a t1 hl hs).2
  · intro t1 hy
    unfold self_of at hy
    split at hy
    · simp [rtos_yield] at hy
      subst hy
      rfl
    · simp [rtos_yield] at hy
  · intro later t1 hrun
    have hmono := run_monotone later t t1 hl hrun
    have hl1 : lifecycle_inv t1 :=
      run_preserves lifecycle_inv (fun u a u1 hP hs => (step_lifecycle u a u1 hP hs).1)
        later t t1 hl hrun
    have hle : t1.state ≤ RTOS_TASK_STOPPED := by
      rw [hl1.1]
      cases t1.thread.pc <;> decide
    refine ⟨hmono, ?_, ?_⟩
    · intro hr hn
      rw [hr, hn] at hmono
      exact absurd hmono (by decide)
    · intro hst
      rw [hst] at hmono
      exact le_antisymm hle hmono

/-- Witness for C6: a task that was started and whose thread stands at the
gate. -/
theorem C6_lifecycle_monotone_witness :
    RTOS_TASK_NEW < RTOS_TASK_RUNNING ∧ RTOS_TASK_RUNNING < RTOS_TASK_STOPPING ∧
    RTOS_TASK_STOPPING < RTOS_TASK_STOPPED ∧
    (∀ a t1, step at_gate a = some t1 → at_gate.state ≤ t1.state) ∧
    (∀ t1, rtos_yield (self_of at_gate) = some t1 → t1.state = at_gate.state) ∧
    (∀ later t1, run at_gate later = some t1 →
      at_gate.state ≤ t1.state ∧
      (at_gate.state = RTOS_TASK_RUNNING → t1.state ≠ RTOS_TASK_NEW) ∧
      (at_gate.state = RTOS_TASK_STOPPED → t1.state = RTOS_TASK_STOPPED)) :=
  C6_lifecycle_monotone true true true true true fresh (by decide)
    [Action.task_start true, Action.trampoline, Action.trampoline] at_gate (by decide)

/-- C2, as stated, fails: right after a first `rtos_task_start` that returned
true, before the backing thread has executed anything, the `state` field is
still New and a second `rtos_task_start` returns true as well. -/
theorem C2_counterexample :
    rtos_task_create true true true true true = (true, some fresh) ∧
    rtos_task_start (some fresh) true = (true, some started_once) ∧
    started_once.thread.pc = Pc.L144 ∧
    started_once.state = RTOS_TASK_NEW ∧
    (rtos_task_start (some started_once) true).1 = true ∧
    rtos_task_start_interleaved started_once [] [] true = some (true, started_once) := by
  decide

/-- C2, amended: after a call of `rtos_task_start` on a created task has
returned true, a later call, its statements interleaved with anything else,
returns false and changes nothing when its check of the state (line 193) comes
after the backing thread has stored Running (line 146); when its check still
reads New, that is before the thread has executed line 146, it returns true
again whenever the host resumes the thread.  The first call's effect is
unchanged: the thread stays resumed, no statement of a later call clears the
gate, and the gate stays signaled until the thread has passed it. -/
theorem C2_later_start (out_ok entry_ok heap_ok event_ok thread_ok : Bool)
    (t0 : rtos_task_t)
    (hcreate : rtos_task_create out_ok entry_ok heap_ok event_ok thread_ok = (true, some t0))
    (before : List Action) (t1 : rtos_task_t) (hbefore : run t0 before = some t1)
    (a1 b1 : List Action) (r1 : Bool) (t2 : rtos_task_t)
    (hfirst : rtos_task_start_interleaved t1 a1 b1 r1 = some (true, t2))
    (between : List Action) (t3 : rtos_task_t) (hbetween : run t2 between = some t3)
    (a b : List Action) (r ret : Bool) (t4 : rtos_task_t)
    (hlater : rtos_task_start_interleaved t3 a b r = some (ret, t4)) :
    (t3.state = RTOS_TASK_NEW ↔ (t3.thread.pc = Pc.L144 ∨ t3.thread.pc = Pc.L146)) ∧
    (t3.state ≠ RTOS_TASK_NEW → ret = false ∧ t4 = t3) ∧
    (t3.state = RTOS_TASK_NEW → ret = r) ∧
    t4.thread.suspendCount = 0 ∧
    (t4.thread.pc.beforeGate = true → t4.run_event.signaled = true) ∧
    (∀ acts u, run t2 acts = some u →
      u.thread.suspendCount = 0 ∧
      (u.thread.pc.beforeGate = true → u.run_event.signaled = true) ∧
      (rtos_task_start_l193 u).2 = u ∧
      (rtos_task_start_l195 u).run_event.signaled = true ∧
      (u.run_event.signaled = true → rtos_task_start_l195 u = u) ∧
      (∀ r2, (rtos_task_start_l196 u r2).2 = u)) := by
  have h0 := rtos_task_create_ok _ _ _ _ _ t0 hcreate
  subst h0
  have hl1 : lifecycle_inv t1 := run_lifecycle before t1 hbefore
  have hs2 : started_inv t2 := started_of_interleaved t1 t2 a1 b1 r1 hl1 hfirst
  have hs3 : started_inv t3 := run_preserves started_inv step_started between t2 t3 hs2 hbetween
  obtain ⟨hrefused, hagain, hs4⟩ := interleaved_on_started t3 t4 a b r ret hs3 hlater
  refine ⟨lifecycle_new_iff t3 hs3.1, hrefused, hagain, hs4.2.1, hs4.2.2, ?_⟩
  intro acts u hu
  have hsu : started_inv u := run_preserves started_inv step_started acts t2 u hs2 hu
  refine ⟨hsu.2.1, hsu.2.2, ?_, rfl, ?_, ?_⟩
  · rw [rtos_task_start_l193_read]
  · intro hsig
    obtain ⟨thr, sr, st, ⟨mr, sg⟩, o1, o2, o3⟩ := u
    simp only at hsig
    subst hsig
    rfl
  · intro r2
    rw [rtos_task_start_l196_resumed u r2 hsu.2.1]

/-- Witness for C2: the later call checks the state while it is still New;
before its `SetEvent` the backing thread stores Running, passes the gate and
resets it in `rtos_yield`; the call then signals the gate and returns true. -/
theorem C2_later_start_witness :
    (started_once.state = RTOS_TASK_NEW ↔
      (started_once.thread.pc = Pc.L144 ∨ started_once.thread.pc = Pc.L146)) ∧
    (started_once.state ≠ RTOS_TASK_NEW → true = false ∧ in_yield_gate_set = started_once) ∧
    (started_once.state = RTOS_TASK_NEW → true = true) ∧
    in_yield_gate_set.thread.suspendCount = 0 ∧
    (in_yield_gate_set.thread.pc.beforeGate = true →
      in_yield_gate_set.run_event.signaled = true) ∧
    (∀ acts u, run started_once acts = some u →
      u.thread.suspendCount = 0 ∧
      (u.thread.pc.beforeGate = true → u.run_event.signaled = true) ∧
      (rtos_task_start_l193 u).2 = u ∧
      (rtos_task_start_l195 u).run_event.signaled = true ∧
      (u.run_event.signaled = true → rtos_task_start_l195 u = u) ∧
      (∀ r2, (rtos_task_start_l196 u r2).2 = u)) :=
  C2_later_start true true true true true fresh (by decide) [] fresh (by decide)
    [] [] true started_once (by decide) [] started_once (by decide)
    [Action.trampoline, Action.trampoline, Action.trampoline, Action.entry_yield] [] true
    true in_yield_gate_set (by decide)

/-- C4: on a freshly created, never started task, `rtos_task_stop` followed by
`rtos_task_start` (the host resuming the thread) returns true; from then on,
whatever else happens, the backing thread is never blocked at the start gate,
every poll of `rtos_should_stop` from the entry body, the first included,
returns true, and the statement after the return of the entry stores Stopped.
The schedule in which the entry polls once and returns ends in Stopped. -/
theorem C4_stop_before_start (out_ok entry_ok heap_ok event_ok thread_ok : Bool)
    (t0 : rtos_task_t)
    (hcreate : rtos_task_create out_ok entry_ok heap_ok event_ok thread_ok = (true, some t0)) :
    ∃ t1 t2, rtos_task_stop (some t0) = some t1 ∧
      rtos_task_start (some t1) true = (true, some t2) ∧
      (∀ acts t, run t2 acts = some t →
        (t.thread.pc.beforeGate = true → ∃ t3, task_trampoline t = some t3) ∧
        (t.thread.pc = Pc.L149 →
          ∃ t3, task_trampoline t = some t3 ∧ t3.thread.pc = Pc.L151) ∧
        (t.thread.pc = Pc.L151 → (rtos_should_stop (self_of t)).1 = true) ∧
        (t.thread.pc = Pc.L151 →
          ∃ t3 t4, step t Action.entry_return = some t3 ∧ task_trampoline t3 = some t4 ∧
            t4.state = RTOS_TASK_STOPPED ∧ t4.thread.pc = Pc.exited)) ∧
      (∃ t, run t2 [Action.trampoline, Action.trampoline, Action.trampoline,
          Action.entry_should_stop, Action.entry_return, Action.trampoline] = some t ∧
        t.state = RTOS_TASK_STOPPED ∧ t.thread.pc = Pc.exited) := by
  have h0 := rtos_task_create_ok _ _ _ _ _ t0 hcreate
  subst h0
  refine ⟨stop_requested, stop_then_started, by decide, by decide, ?_,
    ⟨stop_then_exited, by decide, by decide, by decide⟩⟩
  intro acts t hrun
  have hl1 : lifecycle_inv stop_requested := by
    simp [lifecycle_inv, stop_requested, fresh, Pc.expectedState]
  have hs2 : started_inv stop_then_started :=
    started_of_start stop_requested stop_then_started true hl1 (by decide)
  have hs : started_inv t ∧ t.stop_req = 1 :=
    run_preserves (fun u => started_inv u ∧ u.stop_req = 1)
      (fun u a u1 hP hstep => ⟨step_started u a u1 hP.1 hstep, step_stop_req u a u1 hP.2 hstep⟩)
      acts stop_then_started t ⟨hs2, rfl⟩ hrun
  obtain ⟨⟨⟨hst, _, _, htls⟩, hsc, hg⟩, hsr⟩ := hs
  obtain ⟨⟨sc, pc, tls⟩, sr, st, ⟨mr, sg⟩, o1, o2, o3⟩ := t
  simp only at hst htls hsc hg hsr
  subst hsc hsr
  refine ⟨?_, ?_, ?_, ?_⟩
  · intro hb
    have hsg : sg = true := hg hb
    subst hsg
    cases pc <;> simp [Pc.beforeGate] at hb <;>
      simp [task_trampoline, WaitForSingleObject_event]
  · intro hp
    subst hp
    have hsg : sg = true := hg rfl
    subst hsg
    simp [task_trampoline, WaitForSingleObject_event]
  · intro hp
    subst hp
    have ht : tls = true := htls (by decide)
    subst ht
    simp [self_of, rtos_should_stop_self]
  · intro hp
    subst hp
    simp [step, task_trampoline, InterlockedExchange]

/-- Witness for C4: the task of a creation in which every host call
succeeds. -/
theorem C4_stop_before_start_witness :
    ∃ t1 t2, rtos_task_stop (some fresh) = some t1 ∧
      rtos_task_start (some t1) true = (true, some t2) ∧
      (∀ acts t, run t2 acts = some t →
        (t.thread.pc.beforeGate = true → ∃ t3, task_trampoline t = some t3) ∧
        (t.thread.pc = Pc.L149 →
          ∃ t3, task_trampoline t = some t3 ∧ t3.thread.pc = Pc.L151) ∧
        (t.thread.pc = Pc.L151 → (rtos_should_stop (self_of t)).1 = true) ∧
        (t.thread.pc = Pc.L151 →
          ∃ t3 t4, step t Action.entry_return = some t3 ∧ task_trampoline t3 = some t4 ∧
            t4.state = RTOS_TASK_STOPPED ∧ t4.thread.pc = Pc.exited)) ∧
      (∃ t, run t2 [Action.trampoline, Action.trampoline, Action.trampoline,
          Action.entry_should_stop, Action.entry_return, Action.trampoline] = some t ∧
        t.state = RTOS_TASK_STOPPED ∧ t.thread.pc = Pc.exited) :=
  C4_stop_before_start true true true true true fresh (by decide)

end RtosWin32
